import Mathlib

/-!
# Verification of the coin-tracker chunked polling pipeline

Shallow embedding of the core of the `coin-tracker` repository:

* `src/utils/transaction_parser.py` — `EthereumTransactionParser`
  (`parse_transaction`, `_parse_transaction_type`, `_format_value`,
  `_timestamp_to_datetime`, `_get_token_info`);
* `src/utils/transaction_poller.py` — `CSVPersistor`
  (`persist_transactions`, `append_transactions`) and `TransactionPoller`
  (`_get_chunk_boundaries`, `_fetch_transactions_for_chunk`,
  `poll_transactions`);
* the gas-fee decision of `_process_transaction_batch` in
  `src/ethereum_transaction_tracker.py`.

Modelling conventions:

* A Python dict of raw provider fields is a `RawTx` of `Option String`
  fields (`none` = key absent).  A canonical (parsed) record is an
  association list `List (String × String)` mirroring the dict literal of
  `parse_transaction`, so that the key set itself is an observable.
* Python's `int(s)` on strings is `pyInt?` (optional sign followed by
  decimal digits; surrounding whitespace and underscore separators,
  which Python also accepts, are outside the model).
* Python's float division plus `"%.6f"` formatting in `_format_value` is
  modelled by exact rational division rounded half-to-even to six
  fractional places; this agrees with the source on every value whose
  quotient is exactly representable, in particular on all inputs the
  specification exercises.
* `datetime.fromtimestamp(..).strftime('%Y-%m-%d %H:%M:%S')` (local
  timezone) is modelled as the UTC civil calendar rendering.
* The CSV file is modelled as a header plus a table of string cells; a
  file that pandas cannot read is the `corrupt` state.  Rereading a
  written file (`pd.read_csv` on the append path) applies pandas'
  per-column dtype inference: a column of integer numerals parses to
  `int64`, a column of numerals or blanks to `float64`, anything else
  stays `object` (verbatim strings, blanks round-tripping through `NaN`
  to blanks), and the parsed columns are rewritten by `to_csv` in
  canonical numeral form — so `"1.000000"` comes back as `"1.0"`.  The
  numeral round-trip is modelled exactly on numerals of at most 15
  significant digits whose integers fit `int64` (beyond that the parse
  itself rounds, which no exact model can render); fresh rows, built
  from Python dicts of strings, are `object` dtype and written
  verbatim.
-/

/-! ## Decimal digit rendering -/

/-- The decimal digit character for `n % 10`. -/
def natDigitChar (n : Nat) : Char :=
  Char.ofNat (48 + n % 10)

/-- Digits of `n`, most significant first, with structural fuel
(`fuel ≥ n` suffices since `n / 10 < n`). -/
def natDigitListFuel : Nat → Nat → List Char
  | _, 0 => []
  | 0, _ + 1 => []
  | fuel + 1, n + 1 => natDigitListFuel fuel ((n + 1) / 10) ++ [natDigitChar (n + 1)]

/-- Decimal digits of `n`, most significant first; empty for `0`. -/
def natDigitList (n : Nat) : List Char :=
  natDigitListFuel n n

/-- Decimal rendering of a natural number (`"0"` for zero). -/
def natToString (n : Nat) : String :=
  if n = 0 then "0" else String.mk (natDigitList n)

/-- Exactly six decimal digits, left padded with zeros: the fractional
part written by a `"%.6f"` format. -/
def sixDigitString (n : Nat) : String :=
  String.mk [natDigitChar (n / 100000), natDigitChar (n / 10000),
             natDigitChar (n / 1000), natDigitChar (n / 100),
             natDigitChar (n / 10), natDigitChar n]

/-! ## Python `int(...)` on strings -/

/-- Accumulate a digit list into a natural number. -/
def digitsToNat (cs : List Char) : Nat :=
  cs.foldl (fun a c => a * 10 + (c.toNat - 48)) 0

/-- Python's `int(s)` for a string: optional sign then one or more
decimal digits; `none` models the `ValueError` raised otherwise. -/
def pyInt? (s : String) : Option Int :=
  match s.toList with
  | [] => none
  | '+' :: rest =>
    if rest ≠ [] ∧ rest.all Char.isDigit then some (digitsToNat rest) else none
  | '-' :: rest =>
    if rest ≠ [] ∧ rest.all Char.isDigit then some (-(digitsToNat rest : Int)) else none
  | cs =>
    if cs.all Char.isDigit then some (digitsToNat cs) else none

/-! ## `_format_value` -/

/-- Round `n / d` (with `d > 0`) to the nearest integer, ties to even:
the rounding performed by Python's `"%.6f"` formatting. -/
def rndHalfEven (n d : Nat) : Nat :=
  let q := n / d
  let r := n % d
  if 2 * r < d then q
  else if d < 2 * r then q + 1
  else if q % 2 = 0 then q else q + 1

/-- `EthereumTransactionParser._format_value` (transaction_parser.py,
lines 110-123): `"0"` shortcut, integer parse, division by
`10 ** decimals` rendered with six fractional digits, and pass-through of
non-numeric input.  The float division of the source is modelled as exact
rational division rounded half-to-even to six places. -/
def formatValue (value : String) (decimals : Int) : String :=
  if value = "0" then "0"
  else
    match pyInt? value with
    | none => value
    | some v =>
      if v = 0 then "0"
      else
        let n := v.natAbs * 1000000
        let scaled :=
          if 0 ≤ decimals then rndHalfEven n (10 ^ decimals.toNat)
          else n * 10 ^ (-decimals).toNat
        let sign := if v < 0 then "-" else ""
        sign ++ natToString (scaled / 1000000) ++ "." ++ sixDigitString (scaled % 1000000)

/-! ## `_timestamp_to_datetime` -/

/-- Two-digit zero-padded rendering. -/
def pad2 (n : Nat) : String :=
  if n < 10 then "0" ++ natToString n else natToString n

/-- Four-digit zero-padded rendering (years in the modelled range). -/
def pad4 (n : Nat) : String :=
  if n < 10 then "000" ++ natToString n
  else if n < 100 then "00" ++ natToString n
  else if n < 1000 then "0" ++ natToString n
  else natToString n

/-- Civil date `(year, month, day)` from days since 1970-01-01
(proleptic Gregorian calendar). -/
def civilFromDays (z0 : Int) : Int × Nat × Nat :=
  let z := z0 + 719468
  let era := Int.fdiv z 146097
  let doe := (z - era * 146097).toNat
  let yoe := (doe - doe / 1460 + doe / 36524 - doe / 146096) / 365
  let doy := doe - (365 * yoe + yoe / 4 - yoe / 100)
  let mp := (5 * doy + 2) / 153
  let d := doy - (153 * mp + 2) / 5 + 1
  let m := if mp < 10 then mp + 3 else mp - 9
  let y := (yoe : Int) + era * 400 + (if m ≤ 2 then 1 else 0)
  (y, m, d)

/-- `datetime.fromtimestamp(n).strftime('%Y-%m-%d %H:%M:%S')`, with the
local timezone modelled as UTC. -/
def formatEpoch (n : Int) : String :=
  let days := Int.fdiv n 86400
  let secs := (n - days * 86400).toNat
  let ymd := civilFromDays days
  pad4 ymd.1.toNat ++ "-" ++ pad2 ymd.2.1 ++ "-" ++ pad2 ymd.2.2 ++ " " ++
    pad2 (secs / 3600) ++ ":" ++ pad2 (secs % 3600 / 60) ++ ":" ++ pad2 (secs % 60)

/-- `EthereumTransactionParser._timestamp_to_datetime`
(transaction_parser.py, lines 125-131): render the epoch when the string
parses as an integer, otherwise return the input unchanged (the caught
`ValueError`/`TypeError` branch). -/
def timestampToDatetime (timestamp : String) : String :=
  match pyInt? timestamp with
  | none => timestamp
  | some n => formatEpoch n

/-! ## Raw transaction records -/

/-- ASCII lowercasing of one character. -/
def lowerChar (c : Char) : Char :=
  if 'A' ≤ c ∧ c ≤ 'Z' then Char.ofNat (c.toNat + 32) else c

/-- Python's `str.lower()`, modelled for ASCII (addresses and call-data
in this pipeline are ASCII hex strings). -/
def strToLower (s : String) : String :=
  String.mk (s.toList.map lowerChar)

/-- Python's `str.startswith(pat)`. -/
def strStartsWith (s pat : String) : Bool :=
  pat.toList.isPrefixOf s.toList

/-- A raw provider record: the fields of the Python dict that
`parse_transaction` reads.  `none` models an absent key, so
`tx.get(k, d)` is `(field).getD d`.  (`from`/`to` are Lean keywords,
hence `fromAddr`/`toAddr`.) -/
structure RawTx where
  hash : Option String := none
  timeStamp : Option String := none
  fromAddr : Option String := none
  toAddr : Option String := none
  input : Option String := none
  contractAddress : Option String := none
  tokenID : Option String := none
  value : Option String := none
  tokenDecimal : Option String := none
  gasUsed : Option String := none
  gasPrice : Option String := none
  blockNumber : Option String := none
  confirmations : Option String := none
  isError : Option String := none

/-- Field lookup in a canonical (parsed) record, modelling `record[k]`. -/
def getField (r : List (String × String)) (k : String) : String :=
  (((r.find? (fun p => p.1 == k)).map Prod.snd)).getD ""

/-! ## `_parse_transaction_type` -/

/-- The `self.uniswap_addresses` key set (transaction_parser.py,
lines 16-20). -/
def uniswapAddresses : List String :=
  ["0x7a250d5630b4cf539739df2c5dacb4c659f2488d",
   "0xe592427a0aece92de3edee1f18e0157c05861564",
   "0x1f9840a85d5af5bf1d1762f925bdaddc4201f984"]

/-- The call-data signature dispatch of `_parse_transaction_type`
(transaction_parser.py, lines 84-106), applied to the lowercased
call-data. -/
def classifyInput (inputData : String) : String :=
  if strStartsWith inputData "0xa9059cbb" then "ERC-20 Transfer"
  else if strStartsWith inputData "0x23b872dd" then "ERC-20 Transfer"
  else if strStartsWith inputData "0x42842e0e" then "ERC-721 Transfer"
  else if strStartsWith inputData "0xf242432a" then "ERC-1155 Transfer"
  else if strStartsWith inputData "0x38ed1739" then "Uniswap Trade"
  else if strStartsWith inputData "0x7ff36ab5" then "Uniswap Trade"
  else if strStartsWith inputData "0x18cbafe5" then "Uniswap Trade"
  else if strStartsWith inputData "0x4a25d94a" then "Uniswap Trade"
  else if strStartsWith inputData "0x5c11d795" then "Uniswap Trade"
  else if strStartsWith inputData "0x414bf389" then "Uniswap Trade"
  else "Contract Interaction"

/-- `EthereumTransactionParser._parse_transaction_type`
(transaction_parser.py, lines 72-108).  `tx.get('to')` truthiness is
"present and non-empty"; `tx.get('input') and tx['input'] != '0x'`
likewise. -/
def parseTransactionType (tx : RawTx) (internal : Bool) : String :=
  if internal then "Internal Transfer"
  else
    match tx.toAddr with
    | some t =>
      if t ≠ "" ∧ strStartsWith t "0x" then
        if uniswapAddresses.contains (strToLower t) then "Uniswap Trade"
        else
          match tx.input with
          | some inp =>
            if inp ≠ "" ∧ inp ≠ "0x" then classifyInput (strToLower inp)
            else "ETH Transfer"
          | none => "ETH Transfer"
      else "ETH Transfer"
    | none => "ETH Transfer"

/-! ## `_get_token_info` -/

/-- The static `token_symbols` table (transaction_parser.py,
lines 135-141). -/
def tokenSymbols : List (String × String) :=
  [("0xa0b86a33e6441b8c4c8c0b8c4c8c0b8c4c8c0b8c", "USDC"),
   ("0xdac17f958d2ee523a2206206994597c13d831ec7", "USDT"),
   ("0x2260fac5e5542a773aa44fbcfedf7c193bc2c599", "WBTC"),
   ("0x514910771af9ca656af840dff83e8264ecf986ca", "LINK"),
   ("0x1f9840a85d5af5bf1d1762f925bdaddc4201f984", "UNI")]

/-- `EthereumTransactionParser._get_token_info` (transaction_parser.py,
lines 133-147): static-table lookup on the lowercased address, the
symbol doubling as the name; otherwise `Unknown`/`Unknown`.  No
Provider Client is consulted. -/
def getTokenInfo (contractAddress : String) : String × String :=
  match tokenSymbols.find? (fun p => p.1 == (strToLower contractAddress)) with
  | some p => (p.2, p.2)
  | none => ("Unknown", "Unknown")

/-! ## `parse_transaction` -/

/-- The `asset_symbol_name` computation of `parse_transaction`
(transaction_parser.py, lines 29-32): `'ETH'` unless a contract address
is present (truthy), in which case `f"{symbol} ({name})"`. -/
def assetSymbolName (tx : RawTx) : String :=
  match tx.contractAddress with
  | some ca =>
    if ca ≠ "" then
      let info := getTokenInfo ca
      info.1 ++ " (" ++ info.2 ++ ")"
    else "ETH"
  | none => "ETH"

/-- `int(tx.get('tokenDecimal', 18))` (transaction_parser.py, line 26):
`none` models the raised `ValueError`.  In a model where every present
field is a string, this is the only statement of the `try` body of
`parse_transaction` that can raise. -/
def tokenDecimalVal (tx : RawTx) : Option Int :=
  match tx.tokenDecimal with
  | none => some 18
  | some s => pyInt? s

/-- The success-path dict literal of `parse_transaction`
(transaction_parser.py, lines 34-49), given the parsed `tokenDecimal`. -/
def parseOk (tx : RawTx) (internal : Bool) (decimals : Int) : List (String × String) :=
  [("transaction_hash", (tx.hash).getD ""),
   ("date_time", timestampToDatetime ((tx.timeStamp).getD "")),
   ("from_address", (tx.fromAddr).getD ""),
   ("to_address", (tx.toAddr).getD ""),
   ("transaction_type", parseTransactionType tx internal),
   ("asset_contract_address", (tx.contractAddress).getD ""),
   ("asset_symbol_name", assetSymbolName tx),
   ("token_id", (tx.tokenID).getD ""),
   ("value_amount", formatValue ((tx.value).getD "0") decimals),
   ("gas_fee_eth", formatValue ((tx.gasUsed).getD "0") 18),
   ("gas_price", (tx.gasPrice).getD ""),
   ("block_number", (tx.blockNumber).getD ""),
   ("confirmations", (tx.confirmations).getD ""),
   ("is_error", (tx.isError).getD "0")]

/-- The `except`-branch dict literal of `parse_transaction`
(transaction_parser.py, lines 55-70). -/
def parseErr (tx : RawTx) : List (String × String) :=
  [("transaction_hash", (tx.hash).getD ""),
   ("date_time", timestampToDatetime ((tx.timeStamp).getD "")),
   ("from_address", (tx.fromAddr).getD ""),
   ("to_address", (tx.toAddr).getD ""),
   ("transaction_type", "ERROR"),
   ("asset_contract_address", ""),
   ("asset_symbol_name", "ERROR"),
   ("token_id", ""),
   ("value_amount", "0"),
   ("gas_fee_eth", "0"),
   ("gas_price", ""),
   ("block_number", ""),
   ("confirmations", ""),
   ("is_error", "1")]

/-- `EthereumTransactionParser.parse_transaction` (transaction_parser.py,
lines 22-70): `try` body on success, the `ERROR` record on the one
modelled exception (`int` of a non-numeric `tokenDecimal`). -/
def parseTransaction (tx : RawTx) (internal : Bool) : List (String × String) :=
  match tokenDecimalVal tx with
  | some d => parseOk tx internal d
  | none => parseErr tx

/-- The gas-fee decision of
`EthereumTransactionTracker._process_transaction_batch`
(ethereum_transaction_tracker.py, lines 202 and 221-226): the default
`format_value(gasUsed, 18)` is overridden with `'0'` for
`Internal Transfer` batches. -/
def batchGasFee (txType : String) (tx : RawTx) : String :=
  if txType = "Internal Transfer" then "0"
  else formatValue ((tx.gasUsed).getD "0") 18

/-! ## `_get_chunk_boundaries` -/

/-- The `while current_end > start_epoch` loop of
`TransactionPoller._get_chunk_boundaries` (transaction_poller.py,
lines 172-178), with an explicit fuel bound.  When
`chunk_duration_seconds >= 1` every iteration decreases `current_end` by
at least one, so `(end_epoch - start_epoch).toNat` fuel makes the model
coincide with the Python loop (which simply runs to completion). -/
def chunkLoop (chunkDuration startEpoch : Int) : Nat → Int → List (Int × Int)
  | 0, _ => []
  | fuel + 1, currentEnd =>
    if startEpoch < currentEnd then
      let currentStart := max startEpoch (currentEnd - chunkDuration)
      (currentStart, currentEnd) :: chunkLoop chunkDuration startEpoch fuel currentStart
    else []

/-- `TransactionPoller._get_chunk_boundaries` (transaction_poller.py,
lines 170-180): carve windows backward from `end_epoch`, then reverse
into chronological order. -/
def getChunkBoundaries (chunkDuration startEpoch endEpoch : Int) : List (Int × Int) :=
  (chunkLoop chunkDuration startEpoch (endEpoch - startEpoch).toNat endEpoch).reverse

/-! ## The CSV sink -/

/-- A written destination: header line plus data rows, each row a list of
cell strings. -/
structure Csv where
  header : List String
  rows : List (List String)
deriving DecidableEq

/-- State of the destination file. `corrupt` models a file that exists
but that `pd.read_csv` fails on. -/
inductive FileState where
  | missing
  | corrupt
  | file (c : Csv)
deriving DecidableEq

/-- The `column_order` list of `CSVPersistor.persist_transactions`
(transaction_poller.py, lines 41-52). -/
def persistColumnOrder : List String :=
  ["transaction_hash", "date_time", "from_address", "to_address",
   "transaction_type", "asset_contract_address", "asset_symbol_name",
   "token_id", "value_amount", "gas_fee_eth"]

/-- The `column_mapping` dict of `CSVPersistor.persist_transactions`
(transaction_poller.py, lines 56-67). -/
def persistColumnMapping : List (String × String) :=
  [("transaction_hash", "Transaction Hash"),
   ("date_time", "Date & Time"),
   ("from_address", "From Address"),
   ("to_address", "To Address"),
   ("transaction_type", "Transaction Type"),
   ("asset_contract_address", "Asset Contract Address"),
   ("asset_symbol_name", "Asset Symbol / Name"),
   ("token_id", "Token ID"),
   ("value_amount", "Value / Amount"),
   ("gas_fee_eth", "Gas Fee (ETH)")]

/-- The `column_order` list of `CSVPersistor.append_transactions`
(transaction_poller.py, lines 95-106) — a second literal in the source,
kept as a second definition so its equality with the create path is a
proved fact, not an assumption. -/
def appendColumnOrder : List String :=
  ["transaction_hash", "date_time", "from_address", "to_address",
   "transaction_type", "asset_contract_address", "asset_symbol_name",
   "token_id", "value_amount", "gas_fee_eth"]

/-- The `column_mapping` dict of `CSVPersistor.append_transactions`
(transaction_poller.py, lines 110-121). -/
def appendColumnMapping : List (String × String) :=
  [("transaction_hash", "Transaction Hash"),
   ("date_time", "Date & Time"),
   ("from_address", "From Address"),
   ("to_address", "To Address"),
   ("transaction_type", "Transaction Type"),
   ("asset_contract_address", "Asset Contract Address"),
   ("asset_symbol_name", "Asset Symbol / Name"),
   ("token_id", "Token ID"),
   ("value_amount", "Value / Amount"),
   ("gas_fee_eth", "Gas Fee (ETH)")]

/-- `df.rename(columns=mapping)` applied to a header: map each selected
column name through the mapping (unmapped names pass through). -/
def renameHeader (order : List String) (mapping : List (String × String)) : List String :=
  order.map (fun c => (((mapping.find? (fun p => p.1 == c)).map Prod.snd)).getD c)

/-- `df[column_order]` for one record: project the canonical record onto
the selected columns.  (Projection assumes the keys are present, which
`parse_transaction` guarantees — see the key-set theorem.) -/
def rowOf (order : List String) (r : List (String × String)) : List String :=
  order.map (fun c => getField r c)

/-- `CSVPersistor.persist_transactions` (transaction_poller.py,
lines 27-73): no-op returning `""` on an empty batch, otherwise
overwrite the destination with header plus the projected rows, returning
the filename.  (The timestamped default filename of the source is the
caller's concern; `poll_transactions` always passes one.) -/
def persistTransactions (transactions : List (List (String × String)))
    (filename : String) (fs : FileState) : FileState × String :=
  if transactions = [] then (fs, "")
  else
    (.file ⟨renameHeader persistColumnOrder persistColumnMapping,
            transactions.map (rowOf persistColumnOrder)⟩,
     filename)

/-! ### The pandas read/rewrite round-trip

`append_transactions` rereads the existing destination with
`pd.read_csv` (default dtype inference) and rewrites everything with
`to_csv`.  Existing cells therefore pass through pandas' parsed
representation: integer columns come back as canonical `int64` numerals
and numeral-or-blank columns as `float64` renderings (`"1.000000"` →
`"1.0"`, blanks → `NaN` → blanks), while `object` columns and the
freshly appended string rows are written verbatim. -/

/-- Split an optional leading sign off a numeral: `(isNegative, rest)`;
a leading `+` is consumed. -/
def signSplit (cs : List Char) : Bool × List Char :=
  match cs with
  | '-' :: t => (true, t)
  | '+' :: t => (false, t)
  | t => (false, t)

/-- The integer-part/fraction-part split of an unsigned fixed-point
numeral: `some (ip, fp)` when the characters are digits, one dot,
digits. -/
def floatParts? (cs : List Char) : Option (List Char × List Char) :=
  match cs.span (fun c => c != '.') with
  | (ip, '.' :: fp) =>
    if ip ≠ [] ∧ fp ≠ [] ∧ ip.all Char.isDigit ∧ fp.all Char.isDigit then
      some (ip, fp)
    else none
  | _ => none

/-- Kind of one CSV cell, as pandas' per-column dtype inference sees
it. -/
inductive CellKind where
  | emptyCell
  | intForm
  | floatForm
  | textForm
deriving DecidableEq, BEq

/-- Classify one cell: blank, signed integer numeral, signed fixed-point
numeral, or arbitrary text. -/
def cellKind (s : String) : CellKind :=
  match s.toList with
  | [] => .emptyCell
  | cs =>
    let body := (signSplit cs).2
    if body ≠ [] ∧ body.all Char.isDigit then .intForm
    else if (floatParts? body).isSome then .floatForm
    else .textForm

/-- Column dtype inferred by `pd.read_csv`: all integer numerals give
`int64`; numerals or blanks (a blank reads as `NaN`) give `float64`;
anything else leaves the column `object`. -/
inductive ColType where
  | intCol
  | floatCol
  | objCol
deriving DecidableEq

/-- Infer one column's dtype from all of its cells. -/
def colTypeOf (cells : List String) : ColType :=
  if cells.all (fun c => cellKind c == CellKind.intForm) then .intCol
  else if cells.all (fun c => cellKind c != CellKind.textForm) then .floatCol
  else .objCol

/-- Drop leading zero characters. -/
def stripLeadZeros (cs : List Char) : List Char :=
  cs.dropWhile (fun c => c == '0')

/-- Drop trailing zero characters. -/
def stripTrailZeros (cs : List Char) : List Char :=
  (stripLeadZeros cs.reverse).reverse

/-- The rendering `to_csv` gives an `int64` cell: the canonical decimal
numeral of the parsed integer. -/
def canonIntCell (s : String) : String :=
  let sb := signSplit s.toList
  let n := digitsToNat sb.2
  (if sb.1 ∧ n ≠ 0 then "-" else "") ++ natToString n

/-- The rendering `to_csv` gives a `float64` cell: Python's shortest
round-trip form of the parsed double.  For numerals of at most 15
significant digits the shortest form is exactly the numeral with
redundant zeros removed — positional with at least one fractional digit
for zero and for magnitudes in `[1e-4, 1e16)`, exponent form below
`1e-4` and from `1e16` up; numerals with more significant digits (where
the parse itself rounds) are outside the modelled domain. -/
def canonFloatCell (s : String) : String :=
  let sb := signSplit s.toList
  let sign := if sb.1 then "-" else ""
  let parts : List Char × List Char :=
    match floatParts? sb.2 with
    | some p => p
    | none => (sb.2, ['0'])
  let ip := stripLeadZeros parts.1
  let fp := parts.2
  if (ip ++ fp).all (fun c => c == '0') then sign ++ "0.0"
  else if ip ≠ [] then
    if ip.length ≤ 16 then
      sign ++ String.mk ip ++ "." ++
        String.mk (let f := stripTrailZeros fp; if f = [] then ['0'] else f)
    else
      let sig := stripTrailZeros (ip ++ fp)
      sign ++ String.mk [sig.headD '0'] ++
        (if sig.length ≤ 1 then "" else "." ++ String.mk sig.tail) ++
        "e+" ++ pad2 (ip.length - 1)
  else
    let z := (fp.takeWhile (fun c => c == '0')).length
    if z ≤ 3 then
      sign ++ "0." ++ String.mk (stripTrailZeros fp)
    else
      let sig := stripTrailZeros (fp.drop z)
      sign ++ String.mk [sig.headD '0'] ++
        (if sig.length ≤ 1 then "" else "." ++ String.mk sig.tail) ++
        "e-" ++ pad2 (z + 1)

/-- One cell after the read/rewrite, given its column's inferred
dtype (a blank in a numeric column reads as `NaN` and is written back
blank). -/
def canonCellAt (t : ColType) (s : String) : String :=
  match t with
  | .intCol => canonIntCell s
  | .floatCol => if s = "" then "" else canonFloatCell s
  | .objCol => s

/-- `pd.read_csv` followed by `to_csv`, as it acts on the data rows of a
rectangular table: per column, infer the dtype from all of the column's
cells and rewrite each cell accordingly.  Row count and row order are
preserved; `object` columns are verbatim. -/
def pandasReadTable (header : List String) (rows : List (List String)) :
    List (List String) :=
  let colTypes := (List.range header.length).map
    (fun i => colTypeOf (rows.map (fun r => r.getD i "")))
  rows.map (fun r => (List.range header.length).map
    (fun i => canonCellAt (colTypes.getD i .objCol) (r.getD i "")))

/-- `CSVPersistor.append_transactions` (transaction_poller.py,
lines 75-133): `True` at once on an empty batch; `False` when the
existing destination cannot be read; otherwise reread the destination,
concatenate existing-then-new and rewrite.  A missing destination and
an existing but row-empty destination both take the
`existing_df.empty` branch, so the written header is the append path's
own.  The reread/rewrite of the surviving rows is `pandasReadTable`
(dtype inference, then `to_csv` of the parsed values), while the new
rows — string dicts, hence `object` dtype — are written verbatim.
`pd.concat` aligns columns by name; here the stored header always
equals the append header (the two literals are proved identical
below), making the alignment the identity, which is how it is
modelled. -/
def appendTransactions (transactions : List (List (String × String)))
    (filename : String) (fs : FileState) : FileState × Bool :=
  if transactions = [] then (fs, true)
  else
    let newRows := transactions.map (rowOf appendColumnOrder)
    let newHeader := renameHeader appendColumnOrder appendColumnMapping
    match fs with
    | .corrupt => (.corrupt, false)
    | .missing => (.file ⟨newHeader, newRows⟩, true)
    | .file c =>
      if c.rows = [] then (.file ⟨newHeader, newRows⟩, true)
      else (.file ⟨c.header, pandasReadTable c.header c.rows ++ newRows⟩, true)

/-! ## The polling engine -/

/-- A blockchain-data connector: the five per-category fetches that
`_fetch_transactions_for_chunk` performs, as pure functions of the
address and the chunk bounds. -/
structure Connector where
  getNormalTransactions : String → Int → Int → List RawTx
  getInternalTransactions : String → Int → Int → List RawTx
  getErc20Transfers : String → Int → Int → List RawTx
  getErc721Transfers : String → Int → Int → List RawTx
  getErc1155Transfers : String → Int → Int → List RawTx

/-- The run-state fields of `TransactionPoller` (transaction_poller.py,
lines 157-160).  `start_time` and `last_processed_time` are wall-clock
datetimes in the source; the model keeps `start_time` as the abstract
clock value passed to `poll_transactions` and `last_processed_time` as
the epoch whose datetime the source stores. -/
structure PollerState where
  totalTransactions : Nat
  totalChunksProcessed : Nat
  startTime : Option Nat
  lastProcessedTime : Option Int
deriving DecidableEq

/-- `TransactionPoller.__init__` run-state initialisation
(transaction_poller.py, lines 157-160). -/
def initialPollerState : PollerState :=
  ⟨0, 0, none, none⟩

/-- The reset performed at the top of `poll_transactions`
(transaction_poller.py, lines 220-222): `start_time`,
`total_transactions` and `total_chunks_processed` are assigned;
`last_processed_time` is not touched there. -/
def resetRunState (st : PollerState) (now : Nat) : PollerState :=
  { st with startTime := some now, totalTransactions := 0, totalChunksProcessed := 0 }

/-- `TransactionPoller._fetch_transactions_for_chunk`
(transaction_poller.py, lines 182-216): the five category fetches in
order, each record parsed with the matching `internal` flag, results
concatenated. -/
def fetchTransactionsForChunk (conn : Connector) (address : String)
    (startEpoch endEpoch : Int) : List (List (String × String)) :=
  ((conn.getNormalTransactions address startEpoch endEpoch).map (parseTransaction · false)) ++
  ((conn.getInternalTransactions address startEpoch endEpoch).map (parseTransaction · true)) ++
  ((conn.getErc20Transfers address startEpoch endEpoch).map (parseTransaction · false)) ++
  ((conn.getErc721Transfers address startEpoch endEpoch).map (parseTransaction · false)) ++
  ((conn.getErc1155Transfers address startEpoch endEpoch).map (parseTransaction · false))

/-- Stable insertion of `x` before the first element `y` with `le x y`. -/
def insertLe {α : Type} (le : α → α → Bool) (x : α) : List α → List α
  | [] => [x]
  | y :: ys => if le x y then x :: y :: ys else y :: insertLe le x ys

/-- Stable insertion sort. -/
def sortByLe {α : Type} (le : α → α → Bool) : List α → List α
  | [] => []
  | x :: xs => insertLe le x (sortByLe le xs)

/-- `a` sorts no later than `b` under
`sort(key=lambda x: x.get('date_time',''), reverse=True)`: descending on
the `date_time` string. -/
def dateTimeDescLe (a b : List (String × String)) : Bool :=
  compare (getField b "date_time") (getField a "date_time") ≠ Ordering.gt

/-- A call the polling loop makes on the sink. -/
inductive SinkEvent where
  | persistEv (batch : List (List (String × String))) (filename : String)
  | appendEv (batch : List (List (String × String))) (filename : String)
deriving DecidableEq

/-- The `for i, (chunk_start, chunk_end) in enumerate(chunks, 1)` loop of
`poll_transactions` (transaction_poller.py, lines 238-262): per chunk,
fetch and parse, and if the batch is non-empty, sort it and persist
(first chunk) or append (later chunks) and add to
`total_transactions`; in all cases set `total_chunks_processed := i`
and `last_processed_time := chunk_end`.  The sink calls are recorded as
a trace. -/
def pollLoop (conn : Connector) (address filename : String) :
    Nat → List (Int × Int) → PollerState → PollerState × List SinkEvent
  | _, [], st => (st, [])
  | i, (chunkStart, chunkEnd) :: rest, st =>
    let chunkTransactions := fetchTransactionsForChunk conn address chunkStart chunkEnd
    let stepped :=
      if chunkTransactions = [] then (st, ([] : List SinkEvent))
      else
        let sorted := sortByLe dateTimeDescLe chunkTransactions
        let ev := if i = 1 then SinkEvent.persistEv sorted filename
                  else SinkEvent.appendEv sorted filename
        ({ st with totalTransactions := st.totalTransactions + chunkTransactions.length },
         [ev])
    let st2 := { stepped.1 with totalChunksProcessed := i, lastProcessedTime := some chunkEnd }
    let rec2 := pollLoop conn address filename (i + 1) rest st2
    (rec2.1, stepped.2 ++ rec2.2)

/-- `TransactionPoller.poll_transactions` (transaction_poller.py,
lines 218-275) on its normal path: reset the run state, plan the
chunks, run the loop.  `now` stands for `datetime.now()` at entry;
`filename` is the explicit output filename (the source's timestamped
default only fires when none is given). -/
def pollTransactions (conn : Connector) (chunkDuration : Int)
    (address : String) (startEpoch endEpoch : Int) (filename : String)
    (now : Nat) (st : PollerState) : PollerState × List SinkEvent :=
  let st0 := resetRunState st now
  let chunks := getChunkBoundaries chunkDuration startEpoch endEpoch
  pollLoop conn address filename 1 chunks st0

/-! ## Spec-side definition for token metadata resolution -/

/-- The token-metadata resolution **as the specification words it**
(spec §4.2): "if a contract address is present, query the Provider
Client for symbol/name; on failure or `Unknown` response, consult a
small static table of well-known token addresses; otherwise report
`Unknown`/`Unknown`".  Written from the spec, to be compared with the
source's `getTokenInfo`, which takes no provider at all. -/
def specGetTokenInfo (provider : String → Option (String × String))
    (contractAddress : String) : String × String :=
  match provider contractAddress with
  | some info => if info.1 = "Unknown" then getTokenInfo contractAddress else info
  | none => getTokenInfo contractAddress

/-! ## Theorems -/

/-- C10: for every raw record and either value of the internal flag,
`parse_transaction` returns a record with exactly the fourteen canonical
keys, in the same order, on both the success path and the error path, so
downstream column selection never encounters a missing field. -/
theorem c10_parse_transaction_key_set (tx : RawTx) (internal : Bool) :
    (parseTransaction tx internal).map Prod.fst =
      ["transaction_hash", "date_time", "from_address", "to_address",
       "transaction_type", "asset_contract_address", "asset_symbol_name",
       "token_id", "value_amount", "gas_fee_eth", "gas_price",
       "block_number", "confirmations", "is_error"] := by
  unfold parseTransaction
  cases tokenDecimalVal tx <;> simp [parseOk, parseErr]

/-- C3 counterexample: a record normalized with the internal flag set and
`gasUsed = "1000000000000000000"` gets `gas_fee_eth = "1.000000"`, not
`"0"`: `parse_transaction` does not force the gas fee to zero for
internal transfers. -/
theorem c3_internal_gas_fee_counterexample :
    getField (parseTransaction { gasUsed := some "1000000000000000000" } true) "gas_fee_eth"
        = "1.000000" ∧
    ("1.000000" : String) ≠ "0" := by
  constructor
  · decide
  · decide

/-- C3 amended: on the success path of `parse_transaction`, `gas_fee_eth`
is `_format_value(gasUsed, 18)` regardless of the internal flag; the
forcing of the gas fee to `"0"` for internal transfers happens only in
the tracker's `_process_transaction_batch` path, not in the
normalizer. -/
theorem c3_internal_gas_fee_amended (tx : RawTx) (internal : Bool) (d : Int)
    (h : tokenDecimalVal tx = some d) :
    getField (parseTransaction tx internal) "gas_fee_eth" =
      formatValue ((tx.gasUsed).getD "0") 18 ∧
    batchGasFee "Internal Transfer" tx = "0" := by
  refine ⟨?_, rfl⟩
  simp [parseTransaction, h, parseOk, getField, List.find?]

/-- C3 witness: the amended statement at a concrete internal record. -/
theorem c3_internal_gas_fee_witness :
    getField (parseTransaction { gasUsed := some "21000" } true) "gas_fee_eth" =
      formatValue "21000" 18 ∧
    batchGasFee "Internal Transfer" { gasUsed := some "21000" } = "0" :=
  c3_internal_gas_fee_amended { gasUsed := some "21000" } true 18 rfl

/-- C2 counterexample: a raw record whose `timeStamp` is the non-numeric
string `"not-a-number"` is parsed into a normal record
(`transaction_type = "ETH Transfer"`, `is_error = "0"`), not an `ERROR`
record: `_timestamp_to_datetime` swallows the failure and returns the
raw value, so a malformed timestamp alone never reaches the `except`
branch of `parse_transaction`. -/
theorem c2_malformed_timestamp_counterexample :
    getField (parseTransaction { timeStamp := some "not-a-number" } false) "transaction_type"
        = "ETH Transfer" ∧
    getField (parseTransaction { timeStamp := some "not-a-number" } false) "is_error" = "0" ∧
    ("ETH Transfer" : String) ≠ "ERROR" ∧ ("0" : String) ≠ "1" := by
  refine ⟨by decide, by decide, by decide, by decide⟩

/-- C2 amended: for every raw record whose `timeStamp` is missing or
non-numeric, `parse_transaction` returns (never raises) a record whose
`date_time` equals the original raw timestamp value; the record is an
`ERROR` record with `is_error = "1"` exactly when some other field fails
to parse (in this model, a present non-numeric `tokenDecimal`), and
otherwise carries the normally classified type and the pass-through
`is_error`. -/
theorem c2_timestamp_passthrough_amended (tx : RawTx) (internal : Bool)
    (hts : pyInt? ((tx.timeStamp).getD "") = none) :
    getField (parseTransaction tx internal) "date_time" = (tx.timeStamp).getD "" ∧
    (∀ d, tokenDecimalVal tx = some d →
      getField (parseTransaction tx internal) "transaction_type" =
        parseTransactionType tx internal ∧
      getField (parseTransaction tx internal) "is_error" = (tx.isError).getD "0") ∧
    (tokenDecimalVal tx = none →
      getField (parseTransaction tx internal) "transaction_type" = "ERROR" ∧
      getField (parseTransaction tx internal) "is_error" = "1") := by
  refine ⟨?_, fun d hd => ⟨?_, ?_⟩, fun hn => ⟨?_, ?_⟩⟩
  · unfold parseTransaction
    cases h : tokenDecimalVal tx <;>
      simp [parseOk, parseErr, getField, List.find?, timestampToDatetime, hts]
  · simp [parseTransaction, hd, parseOk, getField, List.find?]
  · simp [parseTransaction, hd, parseOk, getField, List.find?]
  · simp [parseTransaction, hn, parseErr, getField, List.find?]
  · simp [parseTransaction, hn, parseErr, getField, List.find?]

/-- C2 witness: the amended statement at a record with a non-numeric
timestamp and a well-formed `tokenDecimal`. -/
theorem c2_timestamp_passthrough_witness :
    getField (parseTransaction { timeStamp := some "oops" } false) "date_time" = "oops" ∧
    (∀ d, tokenDecimalVal { timeStamp := some "oops" } = some d →
      getField (parseTransaction { timeStamp := some "oops" } false) "transaction_type" =
        parseTransactionType { timeStamp := some "oops" } false ∧
      getField (parseTransaction { timeStamp := some "oops" } false) "is_error" = "0") ∧
    (tokenDecimalVal { timeStamp := some "oops" } = none →
      getField (parseTransaction { timeStamp := some "oops" } false) "transaction_type" = "ERROR" ∧
      getField (parseTransaction { timeStamp := some "oops" } false) "is_error" = "1") :=
  c2_timestamp_passthrough_amended { timeStamp := some "oops" } false (by decide)

/-- C9 counterexample: `poll_transactions` resets only three of the four
run-state fields.  Starting a fresh invocation (here over an empty epoch
range, so no chunk ever runs) from a state left by a previous run with
`last_processed_time` set, the new invocation still carries the old
`last_processed_time = 42`, which differs from the constructor-initial
value `none`. -/
theorem c9_last_processed_time_counterexample :
    ((pollTransactions
        ⟨fun _ _ _ => [], fun _ _ _ => [], fun _ _ _ => [],
         fun _ _ _ => [], fun _ _ _ => []⟩
        900 "0xaddr" 0 0 "out.csv" 7 ⟨5, 2, some 1, some 42⟩).1).lastProcessedTime
      = some 42 ∧
    (some (42 : Int)) ≠ initialPollerState.lastProcessedTime := by
  refine ⟨by decide, by decide⟩

/-- C9 amended: at the start of every `poll_transactions` call,
`total_transactions`, `total_chunks_processed` and `start_time` are
reset, but `last_processed_time` is left at the value of the previous
invocation; in particular a call whose chunk list is empty returns with
the stale `last_processed_time` still in place. -/
theorem c9_reset_amended (st : PollerState) (now : Nat) :
    (resetRunState st now).totalTransactions = 0 ∧
    (resetRunState st now).totalChunksProcessed = 0 ∧
    (resetRunState st now).startTime = some now ∧
    (resetRunState st now).lastProcessedTime = st.lastProcessedTime ∧
    (∀ (conn : Connector) (dur : Int) (address : String) (s : Int) (fn : String),
      pollTransactions conn dur address s s fn now st = (resetRunState st now, [])) := by
  refine ⟨rfl, rfl, rfl, rfl, fun conn dur address s fn => ?_⟩
  simp [pollTransactions, getChunkBoundaries, Int.sub_self, chunkLoop, pollLoop]

/-- C5 counterexample: a non-internal record whose call-data begins with
`0xa9059cbb` but whose destination is the Uniswap V2 router classifies as
`Uniswap Trade`, not `ERC-20 Transfer`: the router-table check precedes
the call-data dispatch. -/
theorem c5_router_shadows_erc20_counterexample :
    parseTransactionType
        { toAddr := some "0x7a250d5630b4cf539739df2c5dacb4c659f2488d",
          input := some "0xa9059cbb00000000" } false = "Uniswap Trade" ∧
    ("Uniswap Trade" : String) ≠ "ERC-20 Transfer" := by
  refine ⟨by decide, by decide⟩

/-- C5 amended: for a non-internal record whose destination is a present,
non-empty, `0x`-prefixed address not in the known-router table, call-data
beginning with `0xa9059cbb` classifies as `ERC-20 Transfer`; a
non-internal record with no effective call-data (absent, empty, or bare
`"0x"`) and no router match classifies as `ETH Transfer`; and a record
normalized with the internal flag set always classifies as
`Internal Transfer`. -/
theorem c5_classification_amended :
    (∀ (tx : RawTx) (t inp : String),
      tx.toAddr = some t → t ≠ "" → strStartsWith t "0x" = true →
      uniswapAddresses.contains (strToLower t) = false →
      tx.input = some inp → inp ≠ "" → inp ≠ "0x" →
      strStartsWith (strToLower inp) "0xa9059cbb" = true →
      parseTransactionType tx false = "ERC-20 Transfer") ∧
    (∀ tx : RawTx,
      (∀ t, tx.toAddr = some t → uniswapAddresses.contains (strToLower t) = false) →
      (tx.input = none ∨ tx.input = some "" ∨ tx.input = some "0x") →
      parseTransactionType tx false = "ETH Transfer") ∧
    (∀ tx : RawTx, parseTransactionType tx true = "Internal Transfer") := by
  refine ⟨?_, ?_, fun tx => rfl⟩
  · intro tx t inp ht htne hstart hrouter hinp hine hinx hsig
    have hr' : strToLower t ∉ uniswapAddresses := by simpa using hrouter
    simp [parseTransactionType, ht, htne, hstart, hr', hinp, hine, hinx,
      classifyInput, hsig]
  · intro tx hrt hni
    cases h : tx.toAddr with
    | none => simp [parseTransactionType, h]
    | some t =>
      have hr' : strToLower t ∉ uniswapAddresses := by simpa using hrt t h
      rcases hni with h1 | h1 | h1 <;> simp [parseTransactionType, h, hr', h1]

/-- C5 witness: the three amended clauses at concrete records. -/
theorem c5_classification_witness :
    parseTransactionType
        { toAddr := some "0x1234567890123456789012345678901234567890",
          input := some "0xa9059cbb00000000" } false = "ERC-20 Transfer" ∧
    parseTransactionType {} false = "ETH Transfer" ∧
    parseTransactionType {} true = "Internal Transfer" :=
  ⟨c5_classification_amended.1 _ "0x1234567890123456789012345678901234567890"
      "0xa9059cbb00000000" rfl (by decide) (by decide) (by decide) rfl
      (by decide) (by decide) (by decide),
   c5_classification_amended.2.1 {} (fun t ht => Option.noConfusion ht) (Or.inl rfl),
   c5_classification_amended.2.2 {}⟩

/-- C8 counterexample: `_get_token_info` never queries the Provider
Client.  For the DAI contract address (absent from the static table), a
provider that resolves it to `("DAI", "Dai Stablecoin")` would, under the
spec's resolution rule, yield `DAI (Dai Stablecoin)`; the normalizer
nonetheless reports `Unknown (Unknown)`. -/
theorem c8_no_provider_query_counterexample :
    specGetTokenInfo
        (fun a => if a = "0x6b175474e89094c44da98b954eedeac495271d0f"
                  then some ("DAI", "Dai Stablecoin") else none)
        "0x6b175474e89094c44da98b954eedeac495271d0f" = ("DAI", "Dai Stablecoin") ∧
    getField
        (parseTransaction
          { contractAddress := some "0x6b175474e89094c44da98b954eedeac495271d0f" } false)
        "asset_symbol_name" = "Unknown (Unknown)" ∧
    ("Unknown (Unknown)" : String) ≠ "DAI (Dai Stablecoin)" := by
  refine ⟨by decide, by decide, by decide⟩

/-- C8 amended: for every raw record carrying a (non-empty) contract
address, on the success path the normalizer resolves
`asset_symbol_name` as `"SYMBOL (Name)"` from `_get_token_info` alone,
which consults only the built-in static table (a hit yields the table
symbol doubling as the name) and otherwise reports
`Unknown`/`Unknown`; no Provider Client is involved. -/
theorem c8_token_info_amended (tx : RawTx) (internal : Bool) (ca : String) (d : Int)
    (hca : tx.contractAddress = some ca) (hne : ca ≠ "")
    (hd : tokenDecimalVal tx = some d) :
    getField (parseTransaction tx internal) "asset_symbol_name" =
      (getTokenInfo ca).1 ++ " (" ++ (getTokenInfo ca).2 ++ ")" ∧
    ((∃ p ∈ tokenSymbols, p.1 = strToLower ca ∧ getTokenInfo ca = (p.2, p.2)) ∨
      getTokenInfo ca = ("Unknown", "Unknown")) := by
  constructor
  · simp [parseTransaction, hd, parseOk, getField, List.find?, assetSymbolName, hca, hne]
  · unfold getTokenInfo
    cases hf : tokenSymbols.find? (fun p => p.1 == strToLower ca) with
    | none => exact Or.inr rfl
    | some p =>
      refine Or.inl ⟨p, List.mem_of_find?_eq_some hf, ?_, rfl⟩
      have hp := List.find?_some hf
      simpa using hp

/-- C8 witness: the amended statement at a record carrying the USDT
contract address (a static-table hit, up to lowercasing). -/
theorem c8_token_info_witness :
    getField
        (parseTransaction
          { contractAddress := some "0xdAC17F958D2ee523a2206206994597C13D831ec7" } false)
        "asset_symbol_name" =
      (getTokenInfo "0xdAC17F958D2ee523a2206206994597C13D831ec7").1 ++ " (" ++
        (getTokenInfo "0xdAC17F958D2ee523a2206206994597C13D831ec7").2 ++ ")" ∧
    ((∃ p ∈ tokenSymbols,
        p.1 = strToLower "0xdAC17F958D2ee523a2206206994597C13D831ec7" ∧
        getTokenInfo "0xdAC17F958D2ee523a2206206994597C13D831ec7" = (p.2, p.2)) ∨
      getTokenInfo "0xdAC17F958D2ee523a2206206994597C13D831ec7" = ("Unknown", "Unknown")) :=
  c8_token_info_amended
    { contractAddress := some "0xdAC17F958D2ee523a2206206994597C13D831ec7" } false
    "0xdAC17F958D2ee523a2206206994597C13D831ec7" 18 rfl (by decide) rfl

/-! ### Lemmas on digit strings (for the formatter theorem) -/

/-- Auxiliary: `natDigitChar` always yields a decimal digit. -/
theorem natDigitChar_isDigit (n : Nat) : (natDigitChar n).isDigit = true := by
  unfold natDigitChar
  have hk : n % 10 < 10 := Nat.mod_lt n (by decide)
  revert hk
  generalize n % 10 = k
  intro hk
  interval_cases k <;> decide

/-- Auxiliary: the digit-list builder emits only decimal digits. -/
theorem natDigitListFuel_digits (fuel n : Nat) :
    (natDigitListFuel fuel n).all Char.isDigit = true := by
  induction fuel generalizing n with
  | zero => cases n <;> simp [natDigitListFuel]
  | succ f ih =>
    cases n with
    | zero => simp [natDigitListFuel]
    | succ m =>
      simp [natDigitListFuel, List.all_append, ih, natDigitChar_isDigit]

/-- Auxiliary: `natToString` consists of decimal digits only. -/
theorem natToString_digits (n : Nat) : (natToString n).toList.all Char.isDigit = true := by
  unfold natToString
  split
  · decide
  · simpa [natDigitList, String.toList] using natDigitListFuel_digits n n

/-- Auxiliary: the fractional block has exactly six characters. -/
theorem sixDigitString_length (n : Nat) : (sixDigitString n).length = 6 := rfl

/-- Auxiliary: the fractional block consists of decimal digits only. -/
theorem sixDigitString_digits (n : Nat) :
    (sixDigitString n).toList.all Char.isDigit = true := by
  simp [sixDigitString, String.toList, natDigitChar_isDigit]

/-- Auxiliary: a sign prefix followed by digits contains only digits and
dashes. -/
theorem digits_or_dash (sg t : String) (hsg : sg = "-" ∨ sg = "")
    (ht : t.toList.all Char.isDigit = true) :
    (sg ++ t).toList.all (fun c => c.isDigit || c == '-') = true := by
  have hcat : (sg ++ t).toList = sg.toList ++ t.toList := by
    simp [String.toList]
  rw [hcat, List.all_append, Bool.and_eq_true]
  constructor
  · rcases hsg with h | h <;> subst h <;> decide
  · refine List.all_eq_true.mpr (fun c hc => ?_)
    have hd := List.all_eq_true.mp ht c hc
    simp_all

/-- C6: `_format_value` maps `"0"` (and any numeral denoting integer
zero) to the literal `"0"`; it maps `"1000000000000000000"` at 18
decimals to `"1.000000"`; any non-numeric input is returned unchanged
(never raising); and every numeric non-zero input produces an optionally
signed integer part followed by a dot and exactly six fractional
digits. -/
theorem c6_format_value :
    formatValue "0" 18 = "0" ∧
    formatValue "1000000000000000000" 18 = "1.000000" ∧
    (∀ (s : String) (d : Int), pyInt? s = some 0 → formatValue s d = "0") ∧
    (∀ (s : String) (d : Int), pyInt? s = none → formatValue s d = s) ∧
    (∀ (s : String) (d : Int) (v : Int), pyInt? s = some v → v ≠ 0 →
      ∃ ip frac, formatValue s d = ip ++ "." ++ frac ∧
        frac.length = 6 ∧ frac.toList.all Char.isDigit = true ∧
        ip.toList.all (fun c => c.isDigit || c == '-') = true) := by
  refine ⟨rfl, by decide, ?_, ?_, ?_⟩
  · intro s d h
    simp [formatValue, h]
  · intro s d h
    have hs : s ≠ "0" := by
      intro hs0; subst hs0
      rw [show pyInt? "0" = some 0 by decide] at h
      exact Option.noConfusion h
    simp [formatValue, hs, h]
  · intro s d v h hv
    have hs : s ≠ "0" := by
      intro hs0; subst hs0
      rw [show pyInt? "0" = some 0 by decide] at h
      exact hv (Option.some.inj h).symm
    refine ⟨(if v < 0 then "-" else "") ++
        natToString ((if 0 ≤ d then rndHalfEven (v.natAbs * 1000000) (10 ^ d.toNat)
                      else v.natAbs * 1000000 * 10 ^ (-d).toNat) / 1000000),
      sixDigitString ((if 0 ≤ d then rndHalfEven (v.natAbs * 1000000) (10 ^ d.toNat)
                       else v.natAbs * 1000000 * 10 ^ (-d).toNat) % 1000000),
      ?_, rfl, sixDigitString_digits _, ?_⟩
    · simp [formatValue, hs, h, hv]
    · refine digits_or_dash _ _ ?_ (natToString_digits _)
      by_cases hvn : v < 0
      · exact Or.inl (by simp [hvn])
      · exact Or.inr (by simp [hvn])

/-- C6 witness: the quantified clauses at concrete inputs (`"00"`
denotes integer zero; `"12abc"` is non-numeric; `"5"` at one decimal is
numeric non-zero). -/
theorem c6_format_value_witness :
    formatValue "00" 5 = "0" ∧
    formatValue "12abc" 18 = "12abc" ∧
    (∃ ip frac, formatValue "5" 1 = ip ++ "." ++ frac ∧
      frac.length = 6 ∧ frac.toList.all Char.isDigit = true ∧
      ip.toList.all (fun c => c.isDigit || c == '-') = true) :=
  ⟨c6_format_value.2.2.1 "00" 5 (by decide),
   c6_format_value.2.2.2.1 "12abc" 18 (by decide),
   c6_format_value.2.2.2.2 "5" 1 5 (by decide) (by decide)⟩

/-! ### Lemmas on the chunk loop (for the planner and engine theorems) -/

/-- Invariant of the backward carving loop, stated over the raw
(descending) chunk list: each pair ends where the previous began, each
window is non-empty and at most `dur` wide, the first pair ends at `c`
and the last pair starts at `s`. -/
def RevChunkSpec (dur s : Int) : Int → List (Int × Int) → Prop
  | _, [] => False
  | c, (a, b) :: rest =>
    b = c ∧ a < b ∧ b - a ≤ dur ∧ ((a = s ∧ rest = []) ∨ (s < a ∧ RevChunkSpec dur s a rest))

/-- Auxiliary: the loop body does not run once `current_end` has reached
`start_epoch`. -/
theorem chunkLoop_stop (dur s : Int) (fuel : Nat) (c : Int) (h : ¬ s < c) :
    chunkLoop dur s fuel c = [] := by
  cases fuel <;> simp [chunkLoop, h]

/-- Auxiliary: with positive chunk duration and sufficient fuel, the
carving loop satisfies `RevChunkSpec`. -/
theorem chunkLoop_spec (dur s : Int) (hdur : 0 < dur) :
    ∀ (fuel : Nat) (c : Int), s < c → (c - s).toNat ≤ fuel →
      RevChunkSpec dur s c (chunkLoop dur s fuel c) := by
  intro fuel
  induction fuel with
  | zero => intro c hc hf; omega
  | succ f ih =>
    intro c hc hf
    simp only [chunkLoop, hc, if_true]
    by_cases hm : c - dur ≤ s
    · have hmax : max s (c - dur) = s := by omega
      rw [hmax, chunkLoop_stop dur s f s (by omega)]
      exact ⟨rfl, hc, by omega, Or.inl ⟨rfl, rfl⟩⟩
    · have hmax : max s (c - dur) = c - dur := by omega
      rw [hmax]
      exact ⟨rfl, by omega, by omega,
        Or.inr ⟨by omega, ih (c - dur) (by omega) (by omega)⟩⟩

/-- Auxiliary: `RevChunkSpec` forbids the empty list. -/
theorem revChunkSpec_ne_nil (dur s c : Int) (h : RevChunkSpec dur s c []) : False := h

/-- Auxiliary: the first carved pair ends at `c`. -/
theorem revChunkSpec_head (dur s : Int) (c : Int) (R : List (Int × Int))
    (h : RevChunkSpec dur s c R) : (R.map Prod.snd).head? = some c := by
  cases R with
  | nil => exact absurd h (revChunkSpec_ne_nil dur s c)
  | cons p rest =>
    obtain ⟨a, b⟩ := p
    simp only [RevChunkSpec] at h
    simp [h.1]

/-- Auxiliary: the last carved pair starts at `s`. -/
theorem revChunkSpec_last (dur s : Int) :
    ∀ (c : Int) (R : List (Int × Int)), RevChunkSpec dur s c R →
      (R.map Prod.fst).getLast? = some s := by
  intro c R
  induction R generalizing c with
  | nil => intro h; exact absurd h (revChunkSpec_ne_nil dur s c)
  | cons p rest ih =>
    intro h
    obtain ⟨a, b⟩ := p
    simp only [RevChunkSpec] at h
    rcases h.2.2.2 with ⟨ha, hrest⟩ | ⟨hsa, hr⟩
    · subst hrest; simp [ha]
    · have hlast := ih a hr
      cases rest with
      | nil => exact absurd hr (revChunkSpec_ne_nil dur s a)
      | cons q t =>
        simpa [List.getLast?_cons_cons] using hlast

/-- Auxiliary: adjacent carved pairs share their boundary (descending
order: each pair starts where the next one ends). -/
theorem revChunkSpec_chain (dur s : Int) :
    ∀ (c : Int) (R : List (Int × Int)), RevChunkSpec dur s c R →
      List.Chain' (fun p q : Int × Int => p.1 = q.2) R := by
  intro c R
  induction R generalizing c with
  | nil => intro _; simp
  | cons p rest ih =>
    intro h
    obtain ⟨a, b⟩ := p
    simp only [RevChunkSpec] at h
    rcases h.2.2.2 with ⟨ha, hrest⟩ | ⟨hsa, hr⟩
    · subst hrest; simp
    · have hchain := ih a hr
      cases rest with
      | nil => exact absurd hr (revChunkSpec_ne_nil dur s a)
      | cons q t =>
        obtain ⟨a', b'⟩ := q
        simp only [RevChunkSpec] at hr
        exact List.chain'_cons.mpr ⟨hr.1.symm, hchain⟩

/-- Auxiliary: every carved pair is non-empty and at most `dur` wide. -/
theorem revChunkSpec_mem (dur s : Int) :
    ∀ (c : Int) (R : List (Int × Int)), RevChunkSpec dur s c R →
      ∀ p ∈ R, p.1 < p.2 ∧ p.2 - p.1 ≤ dur := by
  intro c R
  induction R generalizing c with
  | nil => intro _ p hp; cases hp
  | cons q rest ih =>
    intro h p hp
    obtain ⟨a, b⟩ := q
    simp only [RevChunkSpec] at h
    rcases List.mem_cons.mp hp with rfl | hmem
    · exact ⟨h.2.1, h.2.2.1⟩
    · rcases h.2.2.2 with ⟨_, hrest⟩ | ⟨_, hr⟩
      · subst hrest; cases hmem
      · exact ih a hr p hmem

/-- Auxiliary: when the whole range fits in one window, the planner
returns the single chunk equal to the full range. -/
theorem getChunkBoundaries_single (dur s e : Int)
    (hse : s < e) (hle : e - s ≤ dur) :
    getChunkBoundaries dur s e = [(s, e)] := by
  unfold getChunkBoundaries
  obtain ⟨k, hk⟩ : ∃ k, (e - s).toNat = k + 1 := ⟨(e - s).toNat - 1, by omega⟩
  rw [hk]
  simp only [chunkLoop, hse, if_true]
  have hmax : max s (e - dur) = s := by omega
  rw [hmax, chunkLoop_stop dur s k s (by omega)]
  rfl

/-- C1 counterexample: on equal bounds the planner returns the empty
list, not a single zero-width chunk: the `while current_end >
start_epoch` guard is false at once. -/
theorem c1_equal_bounds_counterexample :
    getChunkBoundaries 900 1735689600 1735689600 = [] ∧
    (getChunkBoundaries 900 1735689600 1735689600).length ≠ 1 := by
  refine ⟨by decide, by decide⟩

/-- C1 amended: for `chunk_duration > 0` and `start_epoch < end_epoch`,
the planner returns a non-empty ascending sequence of contiguous chunks,
the first starting exactly at `start_epoch` and the last ending exactly
at `end_epoch`, each non-empty and of width at most `chunk_duration`;
when `start_epoch = end_epoch` it returns the empty list (no chunk at
all). -/
theorem c1_chunk_planner_amended (dur s e : Int) (hdur : 0 < dur) :
    (s < e →
      getChunkBoundaries dur s e ≠ [] ∧
      ((getChunkBoundaries dur s e).map Prod.fst).head? = some s ∧
      ((getChunkBoundaries dur s e).map Prod.snd).getLast? = some e ∧
      List.Chain' (fun p q : Int × Int => p.2 = q.1) (getChunkBoundaries dur s e) ∧
      ∀ p ∈ getChunkBoundaries dur s e, p.1 < p.2 ∧ p.2 - p.1 ≤ dur) ∧
    getChunkBoundaries dur s s = [] := by
  constructor
  · intro hse
    have hspec := chunkLoop_spec dur s hdur ((e - s).toNat) e hse (le_refl _)
    refine ⟨?_, ?_, ?_, ?_, ?_⟩
    · unfold getChunkBoundaries
      cases hR : chunkLoop dur s ((e - s).toNat) e with
      | nil => rw [hR] at hspec; exact absurd hspec (revChunkSpec_ne_nil dur s e)
      | cons p t => simp
    · unfold getChunkBoundaries
      rw [List.map_reverse, List.head?_reverse]
      exact revChunkSpec_last dur s e _ hspec
    · unfold getChunkBoundaries
      rw [List.map_reverse, List.getLast?_reverse]
      exact revChunkSpec_head dur s e _ hspec
    · unfold getChunkBoundaries
      rw [List.chain'_reverse]
      exact (revChunkSpec_chain dur s e _ hspec).imp (fun a b hab => hab.symm)
    · intro p hp
      rw [getChunkBoundaries, List.mem_reverse] at hp
      exact revChunkSpec_mem dur s e _ hspec p hp
  · simp [getChunkBoundaries, Int.sub_self, chunkLoop]

/-- C1 witness: the amended statement over the range `[0, 2000]` with
900-second chunks. -/
theorem c1_chunk_planner_witness :
    getChunkBoundaries 900 0 2000 ≠ [] ∧
    ((getChunkBoundaries 900 0 2000).map Prod.fst).head? = some 0 ∧
    ((getChunkBoundaries 900 0 2000).map Prod.snd).getLast? = some 2000 ∧
    List.Chain' (fun p q : Int × Int => p.2 = q.1) (getChunkBoundaries 900 0 2000) ∧
    ∀ p ∈ getChunkBoundaries 900 0 2000, p.1 < p.2 ∧ p.2 - p.1 ≤ 900 :=
  (c1_chunk_planner_amended 900 0 2000 (by decide)).1 (by decide)

/-- C4: a chunk whose five category fetches produce no records makes no
sink call and only advances `total_chunks_processed` and
`last_processed_time` (first clause); consequently a run over a single
chunk with zero activity in all five categories ends with
`total_transactions = 0`, `total_chunks_processed = 1`, an empty sink
trace (no destination write), and `last_processed_time` at the chunk
end (second clause). -/
theorem c4_empty_chunk_frame :
    (∀ (conn : Connector) (address filename : String) (i : Nat)
        (chunkStart chunkEnd : Int) (rest : List (Int × Int)) (st : PollerState),
      fetchTransactionsForChunk conn address chunkStart chunkEnd = [] →
      pollLoop conn address filename i ((chunkStart, chunkEnd) :: rest) st =
        pollLoop conn address filename (i + 1) rest
          { st with totalChunksProcessed := i, lastProcessedTime := some chunkEnd }) ∧
    (∀ (conn : Connector) (dur : Int) (address : String) (s e : Int)
        (fn : String) (now : Nat) (st : PollerState),
      s < e → e - s ≤ dur →
      (∀ cs ce, fetchTransactionsForChunk conn address cs ce = []) →
      pollTransactions conn dur address s e fn now st =
        ({ totalTransactions := 0, totalChunksProcessed := 1,
           startTime := some now, lastProcessedTime := some e }, [])) := by
  constructor
  · intro conn address filename i cs ce rest st hfetch
    simp [pollLoop, hfetch]
  · intro conn dur address s e fn now st hse hle hfetch
    unfold pollTransactions
    rw [getChunkBoundaries_single dur s e hse hle]
    simp [pollLoop, hfetch, resetRunState]

/-- C4 witness: a concrete single-chunk run against a connector with no
activity in any category. -/
theorem c4_empty_chunk_frame_witness :
    pollTransactions
        ⟨fun _ _ _ => [], fun _ _ _ => [], fun _ _ _ => [],
         fun _ _ _ => [], fun _ _ _ => []⟩
        900 "0xa39b189482f984388a34460636fea9eb181ad1a6" 0 600 "out.csv" 7
        initialPollerState =
      ({ totalTransactions := 0, totalChunksProcessed := 1,
         startTime := some 7, lastProcessedTime := some 600 }, []) :=
  c4_empty_chunk_frame.2
    ⟨fun _ _ _ => [], fun _ _ _ => [], fun _ _ _ => [],
     fun _ _ _ => [], fun _ _ _ => []⟩
    900 "0xa39b189482f984388a34460636fea9eb181ad1a6" 0 600 "out.csv" 7
    initialPollerState (by decide) (by decide) (fun cs ce => rfl)

/-- Auxiliary: the pandas read/rewrite preserves the number of data
rows. -/
theorem pandasReadTable_length (header : List String) (rows : List (List String)) :
    (pandasReadTable header rows).length = rows.length := by
  simp [pandasReadTable]

/-- Projection of a readable destination onto its data rows. -/
def fileRows : FileState → List (List String)
  | .file c => c.rows
  | _ => []

/-- C7 counterexample: create a destination with one record whose
`Value / Amount` cell is `"1.000000"`, then append one record; the
append rereads the file, dtype inference parses the value column as
`float64`, and the rewrite leaves the surviving first row with
`"1.0"` in that cell — not byte-identical to its pre-append value. -/
theorem c7_pandas_rewrite_counterexample :
    ((fileRows (appendTransactions [parseTransaction {} true] "out.csv"
        (persistTransactions
          [parseTransaction { value := some "1000000000000000000" } false]
          "out.csv" .missing).1).1).headD []).getD 8 "" = "1.0" ∧
    (rowOf persistColumnOrder
        (parseTransaction { value := some "1000000000000000000" } false)).getD 8 ""
      = "1.000000" ∧
    ("1.0" : String) ≠ "1.000000" := by
  refine ⟨by decide, by decide, by decide⟩

/-- C7 amended: the create path and the append path share the identical
column order and header (first clause, the two source literals proved
equal); creating a destination with N records and then appending a
non-empty batch of M yields a readable destination with the header of
the create path, exactly N+M rows in existing-then-new order, whose
first N rows are the originals as rewritten by the pandas read
round-trip — byte-identical to their pre-append values exactly when
that round-trip fixes them, e.g. when no column is inferred numeric
(second clause); appending an empty batch returns `True` without
touching the destination, so then the originals do stay byte-identical
(third clause); appending to a missing destination produces the same
destination state as creating (fourth clause); and appending a
non-empty batch to an unreadable destination returns `False` and
leaves the state alone rather than raising (fifth clause). -/
theorem c7_sink_round_trip_amended :
    (persistColumnOrder = appendColumnOrder ∧
     renameHeader persistColumnOrder persistColumnMapping =
       renameHeader appendColumnOrder appendColumnMapping) ∧
    (∀ (recs1 recs2 : List (List (String × String))) (fn : String),
      recs1 ≠ [] → recs2 ≠ [] →
      (appendTransactions recs2 fn (persistTransactions recs1 fn .missing).1).2 = true ∧
      ∃ c2,
        (appendTransactions recs2 fn (persistTransactions recs1 fn .missing).1).1
          = .file c2 ∧
        c2.header = renameHeader persistColumnOrder persistColumnMapping ∧
        c2.rows.length = recs1.length + recs2.length ∧
        c2.rows.take recs1.length =
          pandasReadTable (renameHeader persistColumnOrder persistColumnMapping)
            (recs1.map (rowOf persistColumnOrder)) ∧
        (pandasReadTable (renameHeader persistColumnOrder persistColumnMapping)
            (recs1.map (rowOf persistColumnOrder))
              = recs1.map (rowOf persistColumnOrder) →
          c2.rows.take recs1.length = recs1.map (rowOf persistColumnOrder))) ∧
    (∀ (fn : String) (fs : FileState), appendTransactions [] fn fs = (fs, true)) ∧
    (∀ (recs : List (List (String × String))) (fn : String),
      (appendTransactions recs fn .missing).1 = (persistTransactions recs fn .missing).1) ∧
    (∀ (recs : List (List (String × String))) (fn : String),
      recs ≠ [] → appendTransactions recs fn .corrupt = (.corrupt, false)) := by
  refine ⟨⟨by decide, by decide⟩, ?_, ?_, ?_, ?_⟩
  · intro recs1 recs2 fn h1 h2
    simp only [persistTransactions, h1, if_false, appendTransactions, h2]
    have hrows : recs1.map (rowOf persistColumnOrder) ≠ [] := by
      simpa using h1
    simp only [if_neg h2, if_neg hrows]
    refine ⟨trivial, _, rfl, rfl, ?_, ?_, ?_⟩
    · simp [pandasReadTable_length, Nat.add_comm]
    · exact List.take_left' (by simp [pandasReadTable_length])
    · intro hid
      exact (List.take_left' (by simp [pandasReadTable_length])).trans hid
  · intro fn fs
    rfl
  · intro recs fn
    by_cases h : recs = []
    · simp [appendTransactions, persistTransactions, h]
    · have ho : appendColumnOrder = persistColumnOrder := by decide
      have hm : appendColumnMapping = persistColumnMapping := by decide
      simp [appendTransactions, persistTransactions, h, ho, hm]
  · intro recs fn h
    simp [appendTransactions, h]

/-- C7 witness: one record created, one appended (its surviving row the
pandas rewrite of the original), and an append against an unreadable
destination, all at concrete parser outputs. -/
theorem c7_sink_round_trip_witness :
    ((appendTransactions [parseTransaction {} true] "out.csv"
        (persistTransactions
          [parseTransaction { value := some "1000000000000000000" } false]
          "out.csv" .missing).1).2 = true ∧
      ∃ c2,
        (appendTransactions [parseTransaction {} true] "out.csv"
          (persistTransactions
            [parseTransaction { value := some "1000000000000000000" } false]
            "out.csv" .missing).1).1 = .file c2 ∧
        c2.header = renameHeader persistColumnOrder persistColumnMapping ∧
        c2.rows.length =
          [parseTransaction { value := some "1000000000000000000" } false].length +
            [parseTransaction {} true].length ∧
        c2.rows.take
            [parseTransaction { value := some "1000000000000000000" } false].length =
          pandasReadTable (renameHeader persistColumnOrder persistColumnMapping)
            ([parseTransaction { value := some "1000000000000000000" } false].map
              (rowOf persistColumnOrder)) ∧
        (pandasReadTable (renameHeader persistColumnOrder persistColumnMapping)
            ([parseTransaction { value := some "1000000000000000000" } false].map
              (rowOf persistColumnOrder))
              = [parseTransaction { value := some "1000000000000000000" } false].map
                  (rowOf persistColumnOrder) →
          c2.rows.take
              [parseTransaction { value := some "1000000000000000000" } false].length =
            [parseTransaction { value := some "1000000000000000000" } false].map
              (rowOf persistColumnOrder))) ∧
    appendTransactions [parseTransaction {} false] "new.csv" .corrupt = (.corrupt, false) :=
  ⟨c7_sink_round_trip_amended.2.1
      [parseTransaction { value := some "1000000000000000000" } false]
      [parseTransaction {} true] "out.csv" (by simp) (by simp),
   c7_sink_round_trip_amended.2.2.2.2 [parseTransaction {} false] "new.csv" (by simp)⟩
